import Mathlib

/-!
Startup sequencing of the openshift-apiserver operator

A shallow embedding of `RunOperator` (pkg/operator/starter.go).  The function is
straight-line code over external collaborators (typed clients, informer
factories, controllers, the version recorder, the stop channel).  The embedding
executes the statements of `RunOperator` in program order against a `World`
that answers every external call, and records

* the sequence of calls `RunOperator` issues, in the order it issues them,
* the contents of the version recorder,
* the arguments that wire the workload controller,
* how the function ends: the returned `error`, or a receive that never completes.

Time is a logical clock: every issued call takes one tick, and the stop channel
of the context is closed by the environment at a tick of that clock, or never.
-/

set_option autoImplicit false

namespace Operator

/-! ## Go values -/

/-- The dynamic type and the content of a Go `error` value. -/
inductive GoError where
  /-- The error built by `errors.New` and by `fmt.Errorf` without a wrapping verb. -/
  | errorString (s : String)
  /-- The API machinery status error, carrying the reason reported by the server. -/
  | statusError (reason : String) (message : String)
  deriving DecidableEq, Repr

/-- The allocation an error value stems from.  Go compares error values by
identity and not by text ("each call to New returns a distinct error value even
if the text is identical", package `errors`), so a value that a collaborator
handed to `RunOperator` and a value that `RunOperator` allocates itself are
different values whatever their content. -/
inductive Allocation where
  /-- Allocated by a collaborator and handed back as its `err` result. -/
  | byCollaborator
  /-- Allocated by a call of `fmt.Errorf` inside `RunOperator`. -/
  | byErrorf
  deriving DecidableEq, Repr

/-- A Go `error` value as a caller holds it: its allocation and its content. -/
structure ErrorValue where
  allocation : Allocation
  content : GoError
  deriving DecidableEq, Repr

/-- The call `fmt.Errorf(s)` with a constant format string: a newly allocated
`errorString`. -/
def fmt.Errorf (s : String) : ErrorValue := ⟨Allocation.byErrorf, GoError.errorString s⟩

/-- Modelled from the spec: the status reader answers `notFoundError|otherError`;
`errors.IsNotFound` of the API machinery library holds of the status errors whose
reason is `NotFound` and of no other error. -/
def errors.IsNotFound : GoError → Bool
  | GoError.statusError reason _ => reason == "NotFound"
  | GoError.errorString _ => false

/-- Channels are identified by a number. -/
abbrev Chan := Nat

/-- The connection descriptor `rest.Config`, kept abstract. -/
abbrev RestConfig := String

/-! ## The published status record -/

/-- One element of `ClusterOperator.Status.Versions`. -/
structure OperandVersion where
  Name : String
  Version : String
  deriving DecidableEq, Repr

/-- The status part of a `ClusterOperator`; `Versions` is a Go slice. -/
structure ClusterOperatorStatus where
  Versions : List OperandVersion := []
  deriving DecidableEq, Repr

/-- The published status record. -/
structure ClusterOperator where
  Status : ClusterOperatorStatus := {}
  deriving DecidableEq, Repr

/-- Modelled from the spec: the status reader `get(name) → (record, notFoundError|otherError)`
of the typed cluster-config client, which is outside the source tree.  The client
allocates a zero record, fills it only when the read succeeds, and returns the
record together with the error. -/
def ClusterOperators.Get (answer : Except GoError ClusterOperator) :
    ClusterOperator × Option GoError :=
  match answer with
  | Except.ok record => (record, none)
  | Except.error err => ({}, some err)

/-! ## The version recorder -/

/-- Modelled from the spec: the Version Ledger, "a mapping from component name to
version string" (`status.VersionGetter` of the operator library, outside the
source tree).  A Go `map[string]string` is represented by its lookup function. -/
structure versionGetter where
  versions : String → Option String

/-- Modelled from the spec: `status.NewVersionGetter()` returns an empty ledger. -/
def status.NewVersionGetter : versionGetter := ⟨fun _ => none⟩

/-- Modelled from the spec: `SetVersion` stores `versions[operandName] = version`,
overwriting any prior value for that one key. -/
def versionGetter.SetVersion (v : versionGetter) (operandName version : String) :
    versionGetter :=
  ⟨fun k => if k = operandName then some version else v.versions k⟩

/-! ## Collaborators -/

/-- The four typed clients. -/
inductive Client where
  | kubeClient
  | apiregistrationv1Client
  | operatorConfigClient
  | configClient
  deriving DecidableEq, Repr

/-- The five cache factories that `RunOperator` starts. -/
inductive Factory where
  | operatorConfigInformers
  | kubeInformersForNamespaces
  | apiregistrationInformers
  | configInformers
  | dynamicInformers
  deriving DecidableEq, Repr

/-- The seven controllers, named after the variables of `RunOperator`. -/
inductive Controller where
  | workloadController
  | configObserver
  | clusterOperatorStatus
  | finalizerController
  | resourceSyncController
  | configUpgradeableController
  | logLevelController
  deriving DecidableEq, Repr

/-- The namespace constants of package `operatorclient`, which is outside the
source tree; they are taken as a parameter. -/
structure OperatorClientConsts where
  GlobalUserSpecifiedConfigNamespace : String
  GlobalMachineSpecifiedConfigNamespace : String
  OperatorNamespace : String
  TargetNamespace : String
  deriving DecidableEq, Repr

/-- The per-namespace informer factory handed out by `InformersFor`. -/
structure NamespaceInformers where
  ns : String
  deriving DecidableEq, Repr

/-- The value built by `v1helpers.NewKubeInformersForNamespaces`: one informer
factory for each namespace it was given. -/
structure KubeInformersForNamespaces where
  namespaces : List String
  deriving DecidableEq, Repr

/-- The call `v1helpers.NewKubeInformersForNamespaces(kubeClient, namespaces...)`. -/
def v1helpers.NewKubeInformersForNamespaces (namespaces : List String) :
    KubeInformersForNamespaces := ⟨namespaces⟩

/-- The method `InformersFor(namespace)`: the factory registered for the namespace, or nil. -/
def KubeInformersForNamespaces.InformersFor (i : KubeInformersForNamespaces)
    (ns : String) : Option NamespaceInformers :=
  if ns ∈ i.namespaces then some ⟨ns⟩ else none

/-- The arguments of `workloadcontroller.NewWorkloadController` that the claims are
about: the two image pull specs and the three per-namespace informer factories,
in parameter order. -/
structure WorkloadArgs where
  targetImagePullSpec : String
  operatorImagePullSpec : String
  targetNamespaceInformers : Option NamespaceInformers
  firstConfigNamespaceInformers : Option NamespaceInformers
  secondConfigNamespaceInformers : Option NamespaceInformers
  deriving DecidableEq, Repr

/-- The context handed to `RunOperator`. -/
structure ControllerContext where
  KubeConfig : RestConfig
  ProtoKubeConfig : RestConfig
  /-- Whether `ctx.Server` is non-nil. -/
  Server : Bool
  stopChan : Chan
  deriving DecidableEq, Repr

/-- Modelled from the spec: the Stop Signal is "a single process-wide, one-shot
signal"; `ctx.Done()` of the controller command library returns the one stop
channel stored in the context. -/
def ControllerContext.Done (ctx : ControllerContext) : Chan := ctx.stopChan

/-- Everything outside `RunOperator` that decides how a run goes.  A constructor
answers with its `err` result (`none` is nil). -/
structure World where
  /-- Answer of `kubernetes.NewForConfig`. -/
  kubernetesNewForConfig : RestConfig → Option GoError
  /-- Answer of `apiregistrationclient.NewForConfig`. -/
  apiregistrationNewForConfig : RestConfig → Option GoError
  /-- Answer of `operatorv1client.NewForConfig`. -/
  operatorv1NewForConfig : RestConfig → Option GoError
  /-- Answer of `configv1client.NewForConfig`. -/
  configv1NewForConfig : RestConfig → Option GoError
  /-- Answer of `genericoperatorclient.NewStaticPodOperatorClient`. -/
  newStaticPodOperatorClient : RestConfig → Option GoError
  /-- Answer of `resourcesynccontroller.NewResourceSyncController`. -/
  newResourceSyncController : Option GoError
  /-- What the API server answers to the read of a `ClusterOperator` by name. -/
  clusterOperator : String → Except GoError ClusterOperator
  /-- The process environment, `os.Getenv`. -/
  getenv : String → String
  /-- The tick at which the environment closes a channel, if it ever does. -/
  closedAt : Chan → Option Nat
  /-- The constants of package `operatorclient`. -/
  operatorclient : OperatorClientConsts

/-! ## Calls and executions -/

/-- The calls issued by `RunOperator` that construct, seed, start or run a
collaborator; the accessors used to build arguments (`CoreV1()`, `ConfigV1()`,
`InformersFor`, `os.Getenv`, ...) have no effect of their own and are left out. -/
inductive Call where
  | NewForConfig (c : Client)
  | NewInformers (f : Factory)
  | NewStaticPodOperatorClient
  | NewController (c : Controller)
  | NewVersionGetter
  | Get (name : String)
  | SetVersion (operandName version : String)
  | Handle (path : String)
  /-- The call `f.Start(stopCh)`. -/
  | Start (f : Factory) (stopCh : Chan)
  /-- The statement `go c.Run(workers, stopCh)`. -/
  | Run (c : Controller) (workers : Nat) (stopCh : Chan)
  /-- A completed receive `<-ch`. -/
  | Recv (ch : Chan)
  deriving DecidableEq, Repr

/-- How an execution of `RunOperator` ends. -/
inductive Outcome where
  /-- The statement `return err` executed at the given tick (`none` is nil). -/
  | returned (err : Option GoError) (tick : Nat)
  /-- The function is suspended in a receive that never completes. -/
  | blocked
  deriving DecidableEq, Repr

/-- An execution of `RunOperator`. -/
structure Execution where
  /-- The calls issued, in program order. -/
  calls : List Call
  /-- The version recorder, once it has been created. -/
  versionRecorder : Option versionGetter
  /-- The wiring of the workload controller, once it has been constructed. -/
  workload : Option WorkloadArgs
  outcome : Outcome
  /-- The value handed to the caller, once the function has returned (`some none`
  is nil). -/
  returnValue : Option (Option ErrorValue)

/-- The statement `return err` after the calls `calls`, where `err` is the error
a collaborator has just handed back. -/
def returnErr (calls : List Call) (vr : Option versionGetter) (err : GoError) : Execution :=
  { calls := calls, versionRecorder := vr, workload := none,
    outcome := Outcome.returned (some err) calls.length,
    returnValue := some (some ⟨Allocation.byCollaborator, err⟩) }

/-- The loop `for _, version := range vs { versionRecorder.SetVersion(version.Name, version.Version) }`. -/
def seedVersions (vr : versionGetter) (vs : List OperandVersion) : versionGetter :=
  vs.foldl (fun r version => r.SetVersion version.Name version.Version) vr

/-- The statements `<-ch; return err`, reached after the calls `calls`: the
receive completes once the channel is closed, and not before. -/
def recvThenReturn (w : World) (calls : List Call) (vr : versionGetter)
    (wl : WorkloadArgs) (ch : Chan) (err : ErrorValue) : Execution :=
  match w.closedAt ch with
  | none =>
    { calls := calls, versionRecorder := some vr, workload := some wl,
      outcome := Outcome.blocked, returnValue := none }
  | some t =>
    { calls := calls ++ [Call.Recv ch], versionRecorder := some vr, workload := some wl,
      outcome := Outcome.returned (some err.content) (max calls.length t),
      returnValue := some (some err) }

/-- The function `RunOperator` of pkg/operator/starter.go. -/
def RunOperator (w : World) (ctx : ControllerContext) : Execution :=
  -- kubeClient, err := kubernetes.NewForConfig(ctx.ProtoKubeConfig)
  let t := [Call.NewForConfig Client.kubeClient]
  match w.kubernetesNewForConfig ctx.ProtoKubeConfig with
  | some err => returnErr t none err
  | none =>
  -- apiregistrationv1Client, err := apiregistrationclient.NewForConfig(ctx.ProtoKubeConfig)
  let t := t ++ [Call.NewForConfig Client.apiregistrationv1Client]
  match w.apiregistrationNewForConfig ctx.ProtoKubeConfig with
  | some err => returnErr t none err
  | none =>
  -- operatorConfigClient, err := operatorv1client.NewForConfig(ctx.KubeConfig)
  let t := t ++ [Call.NewForConfig Client.operatorConfigClient]
  match w.operatorv1NewForConfig ctx.KubeConfig with
  | some err => returnErr t none err
  | none =>
  -- configClient, err := configv1client.NewForConfig(ctx.KubeConfig)
  let t := t ++ [Call.NewForConfig Client.configClient]
  match w.configv1NewForConfig ctx.KubeConfig with
  | some err => returnErr t none err
  | none =>
  -- the four informer factories
  let t := t ++ [Call.NewInformers Factory.operatorConfigInformers]
  let kubeInformersForNamespaces := v1helpers.NewKubeInformersForNamespaces
    ["",
     w.operatorclient.GlobalUserSpecifiedConfigNamespace,
     w.operatorclient.GlobalMachineSpecifiedConfigNamespace,
     w.operatorclient.OperatorNamespace,
     w.operatorclient.TargetNamespace]
  let t := t ++ [Call.NewInformers Factory.kubeInformersForNamespaces]
  let t := t ++ [Call.NewInformers Factory.apiregistrationInformers]
  let t := t ++ [Call.NewInformers Factory.configInformers]
  -- operatorClient, dynamicInformers, err := genericoperatorclient.NewStaticPodOperatorClient(...)
  let t := t ++ [Call.NewStaticPodOperatorClient]
  match w.newStaticPodOperatorClient ctx.KubeConfig with
  | some err => returnErr t none err
  | none =>
  -- resourceSyncController, debugHandler, err := resourcesynccontroller.NewResourceSyncController(...)
  let t := t ++ [Call.NewController Controller.resourceSyncController]
  match w.newResourceSyncController with
  | some err => returnErr t none err
  | none =>
  -- versionRecorder := status.NewVersionGetter()
  let versionRecorder := status.NewVersionGetter
  let t := t ++ [Call.NewVersionGetter]
  -- clusterOperator, err := configClient.ConfigV1().ClusterOperators().Get("openshift-apiserver", ...)
  let t := t ++ [Call.Get "openshift-apiserver"]
  match ClusterOperators.Get (w.clusterOperator "openshift-apiserver") with
  | (clusterOperator, err) =>
  -- if err != nil && !errors.IsNotFound(err) { return err }
  match err.filter (fun e => !errors.IsNotFound e) with
  | some err => returnErr t (some versionRecorder) err
  | none =>
  -- for _, version := range clusterOperator.Status.Versions { versionRecorder.SetVersion(...) }
  let versionRecorder := seedVersions versionRecorder clusterOperator.Status.Versions
  let t := t ++ clusterOperator.Status.Versions.map
    (fun version => Call.SetVersion version.Name version.Version)
  -- versionRecorder.SetVersion("operator", os.Getenv("OPERATOR_IMAGE_VERSION"))
  let versionRecorder := versionRecorder.SetVersion "operator" (w.getenv "OPERATOR_IMAGE_VERSION")
  let t := t ++ [Call.SetVersion "operator" (w.getenv "OPERATOR_IMAGE_VERSION")]
  -- workloadController := workloadcontroller.NewWorkloadController(...)
  let workload : WorkloadArgs :=
    { targetImagePullSpec := w.getenv "IMAGE"
      operatorImagePullSpec := w.getenv "OPERATOR_IMAGE"
      targetNamespaceInformers :=
        kubeInformersForNamespaces.InformersFor w.operatorclient.TargetNamespace
      firstConfigNamespaceInformers :=
        kubeInformersForNamespaces.InformersFor w.operatorclient.GlobalUserSpecifiedConfigNamespace
      secondConfigNamespaceInformers :=
        kubeInformersForNamespaces.InformersFor w.operatorclient.GlobalUserSpecifiedConfigNamespace }
  let t := t ++ [Call.NewController Controller.workloadController]
  -- finalizerController := NewFinalizerController(...)
  let t := t ++ [Call.NewController Controller.finalizerController]
  -- configObserver := configobservercontroller.NewConfigObserver(...)
  let t := t ++ [Call.NewController Controller.configObserver]
  -- clusterOperatorStatus := status.NewClusterOperatorStatusController(...)
  let t := t ++ [Call.NewController Controller.clusterOperatorStatus]
  -- configUpgradeableController := ...NewUnsupportedConfigOverridesController(...)
  let t := t ++ [Call.NewController Controller.configUpgradeableController]
  -- logLevelController := loglevel.NewClusterOperatorLoggingController(...)
  let t := t ++ [Call.NewController Controller.logLevelController]
  -- if ctx.Server != nil { ...Handle("/debug/controllers/resourcesync", debugHandler) }
  let t := if ctx.Server then t ++ [Call.Handle "/debug/controllers/resourcesync"] else t
  -- the five Start calls
  let t := t ++ [Call.Start Factory.operatorConfigInformers ctx.Done]
  let t := t ++ [Call.Start Factory.kubeInformersForNamespaces ctx.Done]
  let t := t ++ [Call.Start Factory.apiregistrationInformers ctx.Done]
  let t := t ++ [Call.Start Factory.configInformers ctx.Done]
  let t := t ++ [Call.Start Factory.dynamicInformers ctx.Done]
  -- the seven go statements
  let t := t ++ [Call.Run Controller.workloadController 1 ctx.Done]
  let t := t ++ [Call.Run Controller.configObserver 1 ctx.Done]
  let t := t ++ [Call.Run Controller.clusterOperatorStatus 1 ctx.Done]
  let t := t ++ [Call.Run Controller.finalizerController 1 ctx.Done]
  let t := t ++ [Call.Run Controller.resourceSyncController 1 ctx.Done]
  let t := t ++ [Call.Run Controller.configUpgradeableController 1 ctx.Done]
  let t := t ++ [Call.Run Controller.logLevelController 1 ctx.Done]
  -- <-ctx.Done(); return fmt.Errorf("stopped")
  recvThenReturn w t versionRecorder workload ctx.Done (fmt.Errorf "stopped")

/-! ## Vocabulary of the statements -/

/-- The call is a cache-factory `Start`. -/
def Call.isStart : Call → Bool
  | Call.Start _ _ => true
  | _ => false

/-- The call is a `go c.Run(...)` statement. -/
def Call.isRun : Call → Bool
  | Call.Run _ _ _ => true
  | _ => false

/-- The call constructs one of the seven controllers. -/
def Call.isNewController : Call → Bool
  | Call.NewController _ => true
  | _ => false

/-- The call constructs a controller other than `c0`. -/
def Call.isNewControllerOtherThan (c0 : Controller) : Call → Bool
  | Call.NewController c => decide (c ≠ c0)
  | _ => false

/-- The call constructs the controller `c0`. -/
def Call.isNewControllerOf (c0 : Controller) : Call → Bool
  | Call.NewController c => decide (c = c0)
  | _ => false

/-- The call creates the version recorder. -/
def Call.isNewVersionGetter : Call → Bool
  | Call.NewVersionGetter => true
  | _ => false

/-- The call writes the version recorder. -/
def Call.isSetVersion : Call → Bool
  | Call.SetVersion _ _ => true
  | _ => false

/-- The call constructs one of the four typed clients. -/
def Call.isNewForConfig : Call → Bool
  | Call.NewForConfig _ => true
  | _ => false

/-- The stop channel a `Start` or `Run` call was given. -/
def Call.stopCh? : Call → Option Chan
  | Call.Start _ ch => some ch
  | Call.Run _ _ ch => some ch
  | _ => none

/-- The four typed clients are constructed without error. -/
def clientsBuilt (w : World) (ctx : ControllerContext) : Prop :=
  w.kubernetesNewForConfig ctx.ProtoKubeConfig = none ∧
  w.apiregistrationNewForConfig ctx.ProtoKubeConfig = none ∧
  w.operatorv1NewForConfig ctx.KubeConfig = none ∧
  w.configv1NewForConfig ctx.KubeConfig = none

/-- Every fallible construction step before the status read succeeds: the four
typed clients, the operator client and the resource-sync controller. -/
def constructionSucceeds (w : World) (ctx : ControllerContext) : Prop :=
  clientsBuilt w ctx ∧
  w.newStaticPodOperatorClient ctx.KubeConfig = none ∧
  w.newResourceSyncController = none

/-- The error result of the read of the published status record. -/
def statusReadErr (w : World) : Option GoError :=
  (ClusterOperators.Get (w.clusterOperator "openshift-apiserver")).2

/-- The record the read of the published status record hands to `RunOperator`. -/
def statusRecord (w : World) : ClusterOperator :=
  (ClusterOperators.Get (w.clusterOperator "openshift-apiserver")).1

/-- The read of the published status record does not abort startup: it returns
no error, or a not-found error. -/
def statusReadPasses (w : World) : Prop :=
  ∀ e, statusReadErr w = some e → errors.IsNotFound e = true

/-- The error with which the status read aborts startup, if it does. -/
def statusReadFault (w : World) : Option GoError :=
  (statusReadErr w).filter (fun e => !errors.IsNotFound e)

/-- Every step up to the end of controller construction succeeds. -/
def startupSucceeds (w : World) (ctx : ControllerContext) : Prop :=
  constructionSucceeds w ctx ∧ statusReadPasses w

/-- The error of the first typed-client construction that fails, in program order. -/
def firstClientErr (w : World) (ctx : ControllerContext) : Option GoError :=
  (w.kubernetesNewForConfig ctx.ProtoKubeConfig).orElse fun _ =>
  (w.apiregistrationNewForConfig ctx.ProtoKubeConfig).orElse fun _ =>
  (w.operatorv1NewForConfig ctx.KubeConfig).orElse fun _ =>
  w.configv1NewForConfig ctx.KubeConfig

/-- The error of the first startup step that fails, in program order: a typed
client, the operator client, the resource-sync controller, or the status read. -/
def startupFault (w : World) (ctx : ControllerContext) : Option GoError :=
  (firstClientErr w ctx).orElse fun _ =>
  (w.newStaticPodOperatorClient ctx.KubeConfig).orElse fun _ =>
  w.newResourceSyncController.orElse fun _ =>
  statusReadFault w

/-- The error value an execution returned, if it returned. -/
def Outcome.result? : Outcome → Option (Option GoError)
  | Outcome.returned err _ => some err
  | Outcome.blocked => none

/-- The calls of a successful startup up to and including the status read. -/
def bootCalls : List Call :=
  [Call.NewForConfig Client.kubeClient,
   Call.NewForConfig Client.apiregistrationv1Client,
   Call.NewForConfig Client.operatorConfigClient,
   Call.NewForConfig Client.configClient,
   Call.NewInformers Factory.operatorConfigInformers,
   Call.NewInformers Factory.kubeInformersForNamespaces,
   Call.NewInformers Factory.apiregistrationInformers,
   Call.NewInformers Factory.configInformers,
   Call.NewStaticPodOperatorClient,
   Call.NewController Controller.resourceSyncController,
   Call.NewVersionGetter,
   Call.Get "openshift-apiserver"]

/-- The calls that seed the version recorder. -/
def seedCalls (w : World) : List Call :=
  (statusRecord w).Status.Versions.map (fun version => Call.SetVersion version.Name version.Version)
    ++ [Call.SetVersion "operator" (w.getenv "OPERATOR_IMAGE_VERSION")]

/-- The constructions that follow the seeding, and the optional diagnostic hook. -/
def wireCalls (ctx : ControllerContext) : List Call :=
  [Call.NewController Controller.workloadController,
   Call.NewController Controller.finalizerController,
   Call.NewController Controller.configObserver,
   Call.NewController Controller.clusterOperatorStatus,
   Call.NewController Controller.configUpgradeableController,
   Call.NewController Controller.logLevelController]
    ++ (if ctx.Server then [Call.Handle "/debug/controllers/resourcesync"] else [])

/-- The five `Start` calls. -/
def startCalls (ch : Chan) : List Call :=
  [Call.Start Factory.operatorConfigInformers ch,
   Call.Start Factory.kubeInformersForNamespaces ch,
   Call.Start Factory.apiregistrationInformers ch,
   Call.Start Factory.configInformers ch,
   Call.Start Factory.dynamicInformers ch]

/-- The seven `go ... Run` statements. -/
def runCalls (ch : Chan) : List Call :=
  [Call.Run Controller.workloadController 1 ch,
   Call.Run Controller.configObserver 1 ch,
   Call.Run Controller.clusterOperatorStatus 1 ch,
   Call.Run Controller.finalizerController 1 ch,
   Call.Run Controller.resourceSyncController 1 ch,
   Call.Run Controller.configUpgradeableController 1 ch,
   Call.Run Controller.logLevelController 1 ch]

/-- The version recorder at the end of the seeding. -/
def seededRecorder (w : World) : versionGetter :=
  (seedVersions status.NewVersionGetter (statusRecord w).Status.Versions).SetVersion
    "operator" (w.getenv "OPERATOR_IMAGE_VERSION")

/-- The wiring of the workload controller, as `RunOperator` computes it. -/
def workloadWiring (w : World) : WorkloadArgs :=
  let i := v1helpers.NewKubeInformersForNamespaces
    ["",
     w.operatorclient.GlobalUserSpecifiedConfigNamespace,
     w.operatorclient.GlobalMachineSpecifiedConfigNamespace,
     w.operatorclient.OperatorNamespace,
     w.operatorclient.TargetNamespace]
  { targetImagePullSpec := w.getenv "IMAGE"
    operatorImagePullSpec := w.getenv "OPERATOR_IMAGE"
    targetNamespaceInformers := i.InformersFor w.operatorclient.TargetNamespace
    firstConfigNamespaceInformers :=
      i.InformersFor w.operatorclient.GlobalUserSpecifiedConfigNamespace
    secondConfigNamespaceInformers :=
      i.InformersFor w.operatorclient.GlobalUserSpecifiedConfigNamespace }

/-- The receive on the stop channel, present once the channel is closed. -/
def recvCalls (w : World) (ch : Chan) : List Call :=
  match w.closedAt ch with
  | none => []
  | some _ => [Call.Recv ch]

/-- Every call of `calls` that satisfies `p` is issued before every call of `calls`
that satisfies `q`: its position in the sequence is strictly smaller. -/
def Precedes (p q : Call → Bool) (calls : List Call) : Prop :=
  ∀ (i j : Nat) (a b : Call), calls[i]? = some a → calls[j]? = some b →
    p a = true → q b = true → i < j

/-! ## Concrete worlds -/

/-- The namespace constants as the operator declares them. -/
def openshiftConsts : OperatorClientConsts :=
  { GlobalUserSpecifiedConfigNamespace := "openshift-config"
    GlobalMachineSpecifiedConfigNamespace := "openshift-config-managed"
    OperatorNamespace := "openshift-apiserver-operator"
    TargetNamespace := "openshift-apiserver" }

/-- A context with a serving surface and stop channel 7. -/
def sampleCtx : ControllerContext :=
  { KubeConfig := "kubeconfig", ProtoKubeConfig := "proto-kubeconfig", Server := true, stopChan := 7 }

/-- The not-found error of the API server. -/
def notFoundErr : GoError :=
  GoError.statusError "NotFound" "clusteroperators.config.openshift.io \"openshift-apiserver\" not found"

/-- First install: every construction succeeds, no status record is published,
`OPERATOR_IMAGE_VERSION=9.9.9`, and the stop channel is closed at tick 100. -/
def firstInstall : World :=
  { kubernetesNewForConfig := fun _ => none
    apiregistrationNewForConfig := fun _ => none
    operatorv1NewForConfig := fun _ => none
    configv1NewForConfig := fun _ => none
    newStaticPodOperatorClient := fun _ => none
    newResourceSyncController := none
    clusterOperator := fun _ => Except.error notFoundErr
    getenv := fun k => if k = "OPERATOR_IMAGE_VERSION" then "9.9.9" else ""
    closedAt := fun _ => some 100
    operatorclient := openshiftConsts }

/-- A world that differs from `firstInstall` in the answer of the status read. -/
def withStatus (answer : Except GoError ClusterOperator) : World :=
  { firstInstall with clusterOperator := fun _ => answer }

/-- A world that differs from `firstInstall` in that the construction of the
`n`-th typed client (counted from 0, in program order) fails with `err`. -/
def withClientFault (n : Nat) (err : GoError) : World :=
  { firstInstall with
    kubernetesNewForConfig := fun _ => if n = 0 then some err else none
    apiregistrationNewForConfig := fun _ => if n = 1 then some err else none
    operatorv1NewForConfig := fun _ => if n = 2 then some err else none
    configv1NewForConfig := fun _ => if n = 3 then some err else none }

/-- A world in which the stop channel is never closed. -/
def neverStopped : World :=
  { firstInstall with closedAt := fun _ => none }

/-- A status record that names component `A` twice. -/
def repeatedRecord : ClusterOperator :=
  { Status := { Versions := [⟨"A", "1.0"⟩, ⟨"A", "2.0"⟩] } }

/-- A status record with the components of the scenario of the specification and
a stale entry for the operator itself. -/
def sampleRecord : ClusterOperator :=
  { Status := { Versions := [⟨"A", "1.0"⟩, ⟨"B", "2.0"⟩, ⟨"operator", "0.0.1"⟩] } }

/-! ## Lists of calls -/

/-- If no element of the first part satisfies `q` and no element of the second part
satisfies `p`, every `p`-element of the concatenation comes before every `q`-element. -/
theorem precedes_of_split {α : Type} (p q : α → Bool) (l1 l2 : List α)
    (h1 : ∀ x ∈ l1, q x = false) (h2 : ∀ x ∈ l2, p x = false)
    (i j : Nat) (a b : α) (hi : (l1 ++ l2)[i]? = some a) (hj : (l1 ++ l2)[j]? = some b)
    (ha : p a = true) (hb : q b = true) : i < j := by
  have hi1 : i < l1.length := by
    by_contra hlt
    rw [List.getElem?_append_right (Nat.le_of_not_lt hlt)] at hi
    have := h2 a (List.getElem?_mem hi)
    simp [ha] at this
  have hj1 : l1.length ≤ j := by
    by_contra hlt
    rw [List.getElem?_append_left (Nat.lt_of_not_le hlt)] at hj
    have := h1 b (List.getElem?_mem hj)
    simp [hb] at this
  omega

/-- The calls of `recvThenReturn` extend the calls before it by at most the receive. -/
theorem recvThenReturn_calls (w : World) (calls : List Call) (vr : versionGetter)
    (wl : WorkloadArgs) (ch : Chan) (err : ErrorValue) :
    (recvThenReturn w calls vr wl ch err).calls =
      calls ++ recvCalls w ch := by
  unfold recvThenReturn recvCalls
  cases w.closedAt ch <;> simp

theorem mem_recvCalls (w : World) (ch : Chan) (x : Call) (hx : x ∈ recvCalls w ch) :
    x = Call.Recv ch := by
  unfold recvCalls at hx
  cases h : w.closedAt ch <;> simp [h] at hx
  exact hx

theorem mem_startCalls (ch : Chan) (x : Call) (hx : x ∈ startCalls ch) :
    ∃ f, x = Call.Start f ch := by
  simp only [startCalls, List.mem_cons, List.mem_singleton, List.not_mem_nil, or_false] at hx
  rcases hx with hx | hx | hx | hx | hx <;> exact ⟨_, hx⟩

theorem mem_runCalls (ch : Chan) (x : Call) (hx : x ∈ runCalls ch) :
    ∃ c, x = Call.Run c 1 ch := by
  simp only [runCalls, List.mem_cons, List.mem_singleton, List.not_mem_nil, or_false] at hx
  rcases hx with hx | hx | hx | hx | hx | hx | hx <;> exact ⟨_, hx⟩

theorem mem_seedCalls (w : World) (x : Call) (hx : x ∈ seedCalls w) :
    ∃ n v, x = Call.SetVersion n v := by
  simp only [seedCalls, List.mem_append, List.mem_map, List.mem_singleton] at hx
  rcases hx with ⟨v, _, rfl⟩ | rfl <;> exact ⟨_, _, rfl⟩

theorem mem_wireCalls (ctx : ControllerContext) (x : Call) (hx : x ∈ wireCalls ctx) :
    x = Call.Handle "/debug/controllers/resourcesync" ∨
    ∃ c, c ≠ Controller.resourceSyncController ∧ x = Call.NewController c := by
  unfold wireCalls at hx
  simp only [List.mem_append, List.mem_cons, List.mem_singleton, List.not_mem_nil,
    or_false] at hx
  rcases hx with (hx | hx | hx | hx | hx | hx) | hx
  · exact Or.inr ⟨_, by decide, hx⟩
  · exact Or.inr ⟨_, by decide, hx⟩
  · exact Or.inr ⟨_, by decide, hx⟩
  · exact Or.inr ⟨_, by decide, hx⟩
  · exact Or.inr ⟨_, by decide, hx⟩
  · exact Or.inr ⟨_, by decide, hx⟩
  · split at hx <;> simp at hx
    exact Or.inl hx


/-! ## Shape of a successful startup -/

theorem RunOperator_of_startupSucceeds (w : World) (ctx : ControllerContext)
    (h : startupSucceeds w ctx) :
    RunOperator w ctx =
      recvThenReturn w
        (bootCalls ++ seedCalls w ++ wireCalls ctx ++ startCalls ctx.Done ++ runCalls ctx.Done)
        (seededRecorder w) (workloadWiring w) ctx.Done (fmt.Errorf "stopped") := by
  obtain ⟨⟨⟨h1, h2, h3, h4⟩, h5, h6⟩, h7⟩ := h
  have h8 : (statusReadErr w).filter (fun e => !errors.IsNotFound e) = none := by
    cases he : statusReadErr w with
    | none => rfl
    | some e => simp [Option.filter, h7 e he]
  unfold statusReadErr at h8
  unfold RunOperator
  simp only [h1, h2, h3, h4, h5, h6]
  rcases hg : ClusterOperators.Get (w.clusterOperator "openshift-apiserver") with ⟨co, err⟩
  rw [hg] at h8
  simp only [h8]
  have hco : statusRecord w = co := by simp [statusRecord, hg]
  cases hs : ctx.Server <;>
    simp [bootCalls, seedCalls, wireCalls, startCalls, runCalls, seededRecorder,
      workloadWiring, hco, hs]

theorem firstInstall_startupSucceeds : startupSucceeds firstInstall sampleCtx := by
  simp [startupSucceeds, constructionSucceeds, clientsBuilt, statusReadPasses, statusReadErr,
    firstInstall, ClusterOperators.Get, notFoundErr, errors.IsNotFound]

/-! ## Startup faults -/

theorem statusReadFault_eq_none_iff (w : World) :
    statusReadFault w = none ↔ statusReadPasses w := by
  unfold statusReadFault statusReadPasses
  cases statusReadErr w with
  | none => simp
  | some e => cases h : errors.IsNotFound e <;> simp [Option.filter, h]

theorem startupFault_eq_none_iff (w : World) (ctx : ControllerContext) :
    startupFault w ctx = none ↔ startupSucceeds w ctx := by
  rw [startupSucceeds, ← statusReadFault_eq_none_iff]
  unfold startupFault firstClientErr constructionSucceeds clientsBuilt
  cases w.kubernetesNewForConfig ctx.ProtoKubeConfig <;>
  cases w.apiregistrationNewForConfig ctx.ProtoKubeConfig <;>
  cases w.operatorv1NewForConfig ctx.KubeConfig <;>
  cases w.configv1NewForConfig ctx.KubeConfig <;>
  cases w.newStaticPodOperatorClient ctx.KubeConfig <;>
  cases w.newResourceSyncController <;>
  simp [Option.orElse]

/-- A run with a startup fault returns the error of the first failing step, after
an initial segment of the calls that lead to the status read. -/
theorem RunOperator_of_startupFault (w : World) (ctx : ControllerContext) (e : GoError)
    (h : startupFault w ctx = some e) :
    ∃ n vr, RunOperator w ctx = returnErr (bootCalls.take n) vr e := by
  unfold startupFault firstClientErr at h
  unfold RunOperator
  cases h1 : w.kubernetesNewForConfig ctx.ProtoKubeConfig with
  | some e1 =>
    simp [h1, Option.orElse] at h
    exact ⟨1, none, by simp [h, bootCalls]⟩
  | none =>
  cases h2 : w.apiregistrationNewForConfig ctx.ProtoKubeConfig with
  | some e2 =>
    simp [h1, h2, Option.orElse] at h
    exact ⟨2, none, by simp [h, bootCalls]⟩
  | none =>
  cases h3 : w.operatorv1NewForConfig ctx.KubeConfig with
  | some e3 =>
    simp [h1, h2, h3, Option.orElse] at h
    exact ⟨3, none, by simp [h, bootCalls]⟩
  | none =>
  cases h4 : w.configv1NewForConfig ctx.KubeConfig with
  | some e4 =>
    simp [h1, h2, h3, h4, Option.orElse] at h
    exact ⟨4, none, by simp [h, bootCalls]⟩
  | none =>
  cases h5 : w.newStaticPodOperatorClient ctx.KubeConfig with
  | some e5 =>
    simp [h1, h2, h3, h4, h5, Option.orElse] at h
    exact ⟨9, none, by simp [h, bootCalls]⟩
  | none =>
  cases h6 : w.newResourceSyncController with
  | some e6 =>
    simp [h1, h2, h3, h4, h5, h6, Option.orElse] at h
    exact ⟨10, none, by simp [h, bootCalls]⟩
  | none =>
    simp only [h1, h2, h3, h4, h5, h6, Option.orElse, statusReadFault, statusReadErr] at h
    rcases hg : ClusterOperators.Get (w.clusterOperator "openshift-apiserver") with ⟨co, err⟩
    rw [hg] at h
    simp only at h
    exact ⟨12, some status.NewVersionGetter, by simp [h, bootCalls]⟩

/-- No call up to the status read starts a cache, runs a controller or writes the
version recorder, and the only controller constructed is the resource-sync one. -/
theorem bootCalls_take_quiet (n : Nat) (x : Call) (hx : x ∈ bootCalls.take n) :
    x.isStart = false ∧ x.isRun = false ∧ x.isSetVersion = false ∧
    (x.isNewController = true → x = Call.NewController Controller.resourceSyncController) := by
  have hx2 : x ∈ bootCalls := List.mem_of_mem_take hx
  simp only [bootCalls, List.mem_cons, List.mem_singleton, List.not_mem_nil, or_false] at hx2
  rcases hx2 with h | h | h | h | h | h | h | h | h | h | h | h <;> subst h <;>
    simp [Call.isStart, Call.isRun, Call.isSetVersion, Call.isNewController]

/-! ## Ordering of cache starts and controller runs -/

/-- A successful startup issues every Start and every Run with the stop channel. -/
theorem issues_starts_and_runs (w : World) (ctx : ControllerContext)
    (h : startupSucceeds w ctx) :
    (∀ f : Factory, Call.Start f ctx.Done ∈ (RunOperator w ctx).calls) ∧
    (∀ c : Controller, Call.Run c 1 ctx.Done ∈ (RunOperator w ctx).calls) := by
  rw [RunOperator_of_startupSucceeds w ctx h, recvThenReturn_calls]
  refine ⟨?_, ?_⟩
  · intro f
    cases f <;> simp [startCalls]
  · intro c
    cases c <;> simp [runCalls]

/-- C1: in every run of RunOperator in which all construction steps succeed, each
of the five cache factories is started, each of the seven controllers is run, and in
the sequence of issued calls every cache-factory Start call comes before every
controller Run call. -/
theorem starts_precede_runs (w : World) (ctx : ControllerContext)
    (h : startupSucceeds w ctx) :
    (∀ f : Factory, Call.Start f ctx.Done ∈ (RunOperator w ctx).calls) ∧
    (∀ c : Controller, Call.Run c 1 ctx.Done ∈ (RunOperator w ctx).calls) ∧
    Precedes Call.isStart Call.isRun (RunOperator w ctx).calls := by
  rw [RunOperator_of_startupSucceeds w ctx h, recvThenReturn_calls]
  refine ⟨?_, ?_, ?_⟩
  · intro f
    cases f <;> simp [startCalls]
  · intro c
    cases c <;> simp [runCalls]
  · intro i j a b hi hj ha hb
    rw [List.append_assoc] at hi hj
    refine precedes_of_split Call.isStart Call.isRun _ _ ?_ ?_ i j a b hi hj ha hb
    · intro x hx
      simp only [List.mem_append] at hx
      rcases hx with ((hx | hx) | hx) | hx
      · exact (bootCalls_take_quiet bootCalls.length x (by simpa using hx)).2.1
      · obtain ⟨n, v, rfl⟩ := mem_seedCalls w x hx
        rfl
      · rcases mem_wireCalls ctx x hx with rfl | ⟨c, _, rfl⟩ <;> rfl
      · obtain ⟨f, rfl⟩ := mem_startCalls _ x hx
        rfl
    · intro x hx
      simp only [List.mem_append] at hx
      rcases hx with hx | hx
      · obtain ⟨c, rfl⟩ := mem_runCalls _ x hx
        rfl
      · rw [mem_recvCalls w _ x hx]
        rfl

/-- Witness of C1: the first-install run issues the five starts and the seven runs,
the starts first. -/
theorem starts_precede_runs_witness :
    startupSucceeds firstInstall sampleCtx ∧
    ((∀ f : Factory, Call.Start f sampleCtx.Done ∈ (RunOperator firstInstall sampleCtx).calls) ∧
     (∀ c : Controller, Call.Run c 1 sampleCtx.Done ∈ (RunOperator firstInstall sampleCtx).calls) ∧
     Precedes Call.isStart Call.isRun (RunOperator firstInstall sampleCtx).calls) :=
  ⟨by simp [startupSucceeds, constructionSucceeds, clientsBuilt, statusReadPasses,
      statusReadErr, firstInstall, ClusterOperators.Get, notFoundErr, errors.IsNotFound],
   starts_precede_runs firstInstall sampleCtx
    (by simp [startupSucceeds, constructionSucceeds, clientsBuilt, statusReadPasses,
      statusReadErr, firstInstall, ClusterOperators.Get, notFoundErr, errors.IsNotFound])⟩

/-! ## The seven controllers and the shared stop signal -/

theorem filter_isRun_calls (w : World) (ctx : ControllerContext)
    (h : startupSucceeds w ctx) :
    (RunOperator w ctx).calls.filter Call.isRun = runCalls ctx.Done := by
  rw [RunOperator_of_startupSucceeds w ctx h, recvThenReturn_calls]
  have hb : bootCalls.filter Call.isRun = [] :=
    List.filter_eq_nil_iff.mpr fun x hx => by
      simp [(bootCalls_take_quiet bootCalls.length x (by simpa using hx)).2.1]
  have hs : (seedCalls w).filter Call.isRun = [] :=
    List.filter_eq_nil_iff.mpr fun x hx => by
      obtain ⟨n, v, rfl⟩ := mem_seedCalls w x hx
      simp [Call.isRun]
  have hw : (wireCalls ctx).filter Call.isRun = [] :=
    List.filter_eq_nil_iff.mpr fun x hx => by
      rcases mem_wireCalls ctx x hx with rfl | ⟨c, _, rfl⟩ <;> simp [Call.isRun]
  have ht : (startCalls ctx.Done).filter Call.isRun = [] :=
    List.filter_eq_nil_iff.mpr fun x hx => by
      obtain ⟨f, rfl⟩ := mem_startCalls _ x hx
      simp [Call.isRun]
  have hr : (recvCalls w ctx.Done).filter Call.isRun = [] :=
    List.filter_eq_nil_iff.mpr fun x hx => by
      rw [mem_recvCalls w _ x hx]
      simp [Call.isRun]
  have hrun : (runCalls ctx.Done).filter Call.isRun = runCalls ctx.Done := by
    simp [runCalls, Call.isRun]
  simp only [List.filter_append, hb, hs, hw, ht, hr, hrun, List.nil_append, List.append_nil]

theorem filter_isStart_calls (w : World) (ctx : ControllerContext)
    (h : startupSucceeds w ctx) :
    (RunOperator w ctx).calls.filter Call.isStart = startCalls ctx.Done := by
  rw [RunOperator_of_startupSucceeds w ctx h, recvThenReturn_calls]
  have hb : bootCalls.filter Call.isStart = [] :=
    List.filter_eq_nil_iff.mpr fun x hx => by
      simp [(bootCalls_take_quiet bootCalls.length x (by simpa using hx)).1]
  have hs : (seedCalls w).filter Call.isStart = [] :=
    List.filter_eq_nil_iff.mpr fun x hx => by
      obtain ⟨n, v, rfl⟩ := mem_seedCalls w x hx
      simp [Call.isStart]
  have hw : (wireCalls ctx).filter Call.isStart = [] :=
    List.filter_eq_nil_iff.mpr fun x hx => by
      rcases mem_wireCalls ctx x hx with rfl | ⟨c, _, rfl⟩ <;> simp [Call.isStart]
  have ht : (runCalls ctx.Done).filter Call.isStart = [] :=
    List.filter_eq_nil_iff.mpr fun x hx => by
      obtain ⟨f, rfl⟩ := mem_runCalls _ x hx
      simp [Call.isStart]
  have hr : (recvCalls w ctx.Done).filter Call.isStart = [] :=
    List.filter_eq_nil_iff.mpr fun x hx => by
      rw [mem_recvCalls w _ x hx]
      simp [Call.isStart]
  have hst : (startCalls ctx.Done).filter Call.isStart = startCalls ctx.Done := by
    simp [startCalls, Call.isStart]
  simp only [List.filter_append, hb, hs, hw, ht, hr, hst, List.nil_append, List.append_nil]

/-- C9: in every run of RunOperator in which all construction steps succeed, the
Run statements issued are exactly those of the seven controllers (workload,
config-observer, cluster-status, finalizer, resource-sync, config-override,
log-level), each issued exactly once; the Start calls issued are exactly those of
the five cache factories, each issued exactly once; every Start and every Run is
passed the stop channel ctx.Done(), and that is the channel RunOperator itself
waits on: the only receive is on it, and the run stays blocked exactly when it is
never closed. -/
theorem seven_runs_one_stop_signal (w : World) (ctx : ControllerContext)
    (h : startupSucceeds w ctx) :
    (RunOperator w ctx).calls.filter Call.isRun =
      [Call.Run Controller.workloadController 1 ctx.Done,
       Call.Run Controller.configObserver 1 ctx.Done,
       Call.Run Controller.clusterOperatorStatus 1 ctx.Done,
       Call.Run Controller.finalizerController 1 ctx.Done,
       Call.Run Controller.resourceSyncController 1 ctx.Done,
       Call.Run Controller.configUpgradeableController 1 ctx.Done,
       Call.Run Controller.logLevelController 1 ctx.Done] ∧
    (∀ c : Controller, (RunOperator w ctx).calls.count (Call.Run c 1 ctx.Done) = 1) ∧
    (RunOperator w ctx).calls.filter Call.isStart =
      [Call.Start Factory.operatorConfigInformers ctx.Done,
       Call.Start Factory.kubeInformersForNamespaces ctx.Done,
       Call.Start Factory.apiregistrationInformers ctx.Done,
       Call.Start Factory.configInformers ctx.Done,
       Call.Start Factory.dynamicInformers ctx.Done] ∧
    (∀ f : Factory, (RunOperator w ctx).calls.count (Call.Start f ctx.Done) = 1) ∧
    (∀ x ∈ (RunOperator w ctx).calls, ∀ ch, x.stopCh? = some ch → ch = ctx.Done) ∧
    (∀ ch, Call.Recv ch ∈ (RunOperator w ctx).calls → ch = ctx.Done) ∧
    ((RunOperator w ctx).outcome = Outcome.blocked ↔ w.closedAt ctx.Done = none) := by
  have hrun := filter_isRun_calls w ctx h
  have hstart := filter_isStart_calls w ctx h
  refine ⟨hrun, ?_, hstart, ?_, ?_, ?_, ?_⟩
  · intro c
    rw [← List.count_filter (show Call.isRun (Call.Run c 1 ctx.Done) = true from rfl), hrun]
    cases c <;> simp [runCalls, List.count_cons]
  · intro f
    rw [← List.count_filter (show Call.isStart (Call.Start f ctx.Done) = true from rfl), hstart]
    cases f <;> simp [startCalls, List.count_cons]
  · intro x hx ch hch
    cases x with
    | Start f c =>
      have hm : Call.Start f c ∈ (RunOperator w ctx).calls.filter Call.isStart :=
        List.mem_filter.mpr ⟨hx, rfl⟩
      rw [hstart] at hm
      obtain ⟨g, hg⟩ := mem_startCalls _ _ hm
      simp only [Call.stopCh?, Option.some.injEq] at hch
      cases hg
      exact hch.symm
    | Run c n d =>
      have hm : Call.Run c n d ∈ (RunOperator w ctx).calls.filter Call.isRun :=
        List.mem_filter.mpr ⟨hx, rfl⟩
      rw [hrun] at hm
      obtain ⟨g, hg⟩ := mem_runCalls _ _ hm
      simp only [Call.stopCh?, Option.some.injEq] at hch
      cases hg
      exact hch.symm
    | _ => simp [Call.stopCh?] at hch
  · intro ch hch
    rw [RunOperator_of_startupSucceeds w ctx h, recvThenReturn_calls] at hch
    simp only [List.mem_append] at hch
    rcases hch with ((((hx | hx) | hx) | hx) | hx) | hx
    · have := (bootCalls_take_quiet bootCalls.length _ (by simpa using hx))
      simp [bootCalls] at hx
    · obtain ⟨n, v, hv⟩ := mem_seedCalls w _ hx
      cases hv
    · rcases mem_wireCalls ctx _ hx with hv | ⟨c, _, hv⟩ <;> cases hv
    · obtain ⟨f, hv⟩ := mem_startCalls _ _ hx
      cases hv
    · obtain ⟨c, hv⟩ := mem_runCalls _ _ hx
      cases hv
    · have hv := mem_recvCalls w _ _ hx
      cases hv
      rfl
  · rw [RunOperator_of_startupSucceeds w ctx h]
    unfold recvThenReturn
    cases w.closedAt ctx.Done <;> simp

/-- Witness of C9 on the first-install run, whose stop channel is channel 7. -/
theorem seven_runs_one_stop_signal_witness :
    startupSucceeds firstInstall sampleCtx ∧
    (RunOperator firstInstall sampleCtx).calls.filter Call.isRun =
      [Call.Run Controller.workloadController 1 7,
       Call.Run Controller.configObserver 1 7,
       Call.Run Controller.clusterOperatorStatus 1 7,
       Call.Run Controller.finalizerController 1 7,
       Call.Run Controller.resourceSyncController 1 7,
       Call.Run Controller.configUpgradeableController 1 7,
       Call.Run Controller.logLevelController 1 7] :=
  ⟨by simp [startupSucceeds, constructionSucceeds, clientsBuilt, statusReadPasses,
      statusReadErr, firstInstall, ClusterOperators.Get, notFoundErr, errors.IsNotFound],
   (seven_runs_one_stop_signal firstInstall sampleCtx
    (by simp [startupSucceeds, constructionSucceeds, clientsBuilt, statusReadPasses,
      statusReadErr, firstInstall, ClusterOperators.Get, notFoundErr, errors.IsNotFound])).1⟩

/-! ## The blocking wait and the terminal result -/

/-- RunOperator has no `return nil`: whatever it returns is a non-nil error. -/
theorem outcome_ne_returned_nil (w : World) (ctx : ControllerContext) (tick : Nat) :
    (RunOperator w ctx).outcome ≠ Outcome.returned none tick := by
  cases hf : startupFault w ctx with
  | some e =>
    obtain ⟨n, vr, hrun⟩ := RunOperator_of_startupFault w ctx e hf
    simp [hrun, returnErr]
  | none =>
    rw [RunOperator_of_startupSucceeds w ctx ((startupFault_eq_none_iff w ctx).mp hf)]
    unfold recvThenReturn
    cases w.closedAt ctx.Done <;> simp

/-- C6: in every run of RunOperator that reaches the controllers-running state
(all startup steps succeed, so the seven Run statements are issued), RunOperator
does not return before the stop signal is raised: if ctx.Done() is never closed
it stays blocked, and whenever it returns, the channel was closed at a tick no
later than the return.  Once the signal is raised at tick t, RunOperator returns
the non-nil error with message "stopped" at a tick not before t.  For no input at
all does RunOperator return nil. -/
theorem returns_stopped_only_after_signal (w : World) (ctx : ControllerContext) :
    (startupSucceeds w ctx →
      (w.closedAt ctx.Done = none → (RunOperator w ctx).outcome = Outcome.blocked) ∧
      (∀ t, w.closedAt ctx.Done = some t →
        ∃ tick, t ≤ tick ∧
          (RunOperator w ctx).outcome =
            Outcome.returned (some (GoError.errorString "stopped")) tick) ∧
      (∀ err tick, (RunOperator w ctx).outcome = Outcome.returned err tick →
        ∃ t, w.closedAt ctx.Done = some t ∧ t ≤ tick ∧
          err = some (GoError.errorString "stopped"))) ∧
    (∀ tick, (RunOperator w ctx).outcome ≠ Outcome.returned none tick) := by
  refine ⟨fun h => ?_, outcome_ne_returned_nil w ctx⟩
  rw [RunOperator_of_startupSucceeds w ctx h]
  unfold recvThenReturn fmt.Errorf
  refine ⟨?_, ?_, ?_⟩
  · intro hc
    simp [hc]
  · intro t hc
    simp only [hc]
    exact ⟨_, Nat.le_max_right _ t, rfl⟩
  · intro err tick ho
    cases hc : w.closedAt ctx.Done with
    | none => simp [hc] at ho
    | some t =>
      simp only [hc, Outcome.returned.injEq] at ho
      exact ⟨t, rfl, by rw [← ho.2]; exact Nat.le_max_right _ t, ho.1.symm⟩

/-- Witness of C6: the first-install run, stopped at tick 100, returns "stopped"
at a tick not before 100, and the same run without a stop signal stays blocked. -/
theorem returns_stopped_only_after_signal_witness :
    startupSucceeds firstInstall sampleCtx ∧
    (∃ tick, 100 ≤ tick ∧
      (RunOperator firstInstall sampleCtx).outcome =
        Outcome.returned (some (GoError.errorString "stopped")) tick) ∧
    (RunOperator neverStopped sampleCtx).outcome = Outcome.blocked :=
  ⟨by simp [startupSucceeds, constructionSucceeds, clientsBuilt, statusReadPasses,
      statusReadErr, firstInstall, ClusterOperators.Get, notFoundErr, errors.IsNotFound],
   ((returns_stopped_only_after_signal firstInstall sampleCtx).1
    (by simp [startupSucceeds, constructionSucceeds, clientsBuilt, statusReadPasses,
      statusReadErr, firstInstall, ClusterOperators.Get, notFoundErr,
      errors.IsNotFound])).2.1 100 rfl,
   ((returns_stopped_only_after_signal neverStopped sampleCtx).1
    (by simp [startupSucceeds, constructionSucceeds, clientsBuilt, statusReadPasses,
      statusReadErr, neverStopped, firstInstall, ClusterOperators.Get, notFoundErr,
      errors.IsNotFound])).1 rfl⟩

/-! ## Faults of the status read and of client construction -/

/-- C4: when every construction step before the status read succeeds and the read
of the published status record returns an error e that is not a not-found error,
RunOperator issues the read, returns exactly e, and aborts startup: no cache
factory is started and no controller Run is issued. -/
theorem status_read_fault_aborts (w : World) (ctx : ControllerContext) (e : GoError)
    (hc : constructionSucceeds w ctx)
    (hr : w.clusterOperator "openshift-apiserver" = Except.error e)
    (hn : errors.IsNotFound e = false) :
    Call.Get "openshift-apiserver" ∈ (RunOperator w ctx).calls ∧
    (RunOperator w ctx).outcome.result? = some (some e) ∧
    (∀ x ∈ (RunOperator w ctx).calls, x.isStart = false ∧ x.isRun = false) := by
  obtain ⟨⟨h1, h2, h3, h4⟩, h5, h6⟩ := hc
  have hrun : RunOperator w ctx = returnErr bootCalls (some status.NewVersionGetter) e := by
    unfold RunOperator
    simp [h1, h2, h3, h4, h5, h6, hr, ClusterOperators.Get, Option.filter, hn, bootCalls]
  rw [hrun]
  refine ⟨by simp [returnErr, bootCalls], rfl, ?_⟩
  intro x hx
  have hq := bootCalls_take_quiet bootCalls.length x (by simpa [returnErr] using hx)
  exact ⟨hq.1, hq.2.1⟩

/-- Witness of C4: the read fails with a forbidden error. -/
theorem status_read_fault_aborts_witness :
    (RunOperator (withStatus (Except.error (GoError.statusError "Forbidden" "denied")))
      sampleCtx).outcome.result? = some (some (GoError.statusError "Forbidden" "denied")) :=
  (status_read_fault_aborts (withStatus (Except.error (GoError.statusError "Forbidden" "denied")))
    sampleCtx (GoError.statusError "Forbidden" "denied")
    ⟨⟨rfl, rfl, rfl, rfl⟩, rfl, rfl⟩ rfl (by decide)).2.1

/-- C5: if the construction of any one of the four typed clients (kube,
apiregistration, operator-config, cluster-config) fails, RunOperator returns a
single error, the one of the construction that failed (the first to fail in
program order, after which no further client is constructed), and in that run no
cache factory is started, no controller is constructed and no controller is run. -/
theorem client_fault_aborts (w : World) (ctx : ControllerContext)
    (h : ¬ clientsBuilt w ctx) :
    ∃ e, firstClientErr w ctx = some e ∧
      (w.kubernetesNewForConfig ctx.ProtoKubeConfig = some e ∨
       w.apiregistrationNewForConfig ctx.ProtoKubeConfig = some e ∨
       w.operatorv1NewForConfig ctx.KubeConfig = some e ∨
       w.configv1NewForConfig ctx.KubeConfig = some e) ∧
      (RunOperator w ctx).outcome.result? = some (some e) ∧
      (∀ x ∈ (RunOperator w ctx).calls,
        x.isNewForConfig = true ∧ x.isStart = false ∧ x.isNewController = false ∧
        x.isRun = false) := by
  unfold clientsBuilt at h
  unfold firstClientErr RunOperator
  cases h1 : w.kubernetesNewForConfig ctx.ProtoKubeConfig with
  | some e1 => exact ⟨e1, by simp [Option.orElse, returnErr, Outcome.result?, Call.isNewForConfig,
      Call.isStart, Call.isNewController, Call.isRun]⟩
  | none =>
  cases h2 : w.apiregistrationNewForConfig ctx.ProtoKubeConfig with
  | some e2 => exact ⟨e2, by simp [Option.orElse, returnErr, Outcome.result?, Call.isNewForConfig,
      Call.isStart, Call.isNewController, Call.isRun]⟩
  | none =>
  cases h3 : w.operatorv1NewForConfig ctx.KubeConfig with
  | some e3 => exact ⟨e3, by simp [Option.orElse, returnErr, Outcome.result?, Call.isNewForConfig,
      Call.isStart, Call.isNewController, Call.isRun]⟩
  | none =>
  cases h4 : w.configv1NewForConfig ctx.KubeConfig with
  | some e4 => exact ⟨e4, by simp [Option.orElse, returnErr, Outcome.result?, Call.isNewForConfig,
      Call.isStart, Call.isNewController, Call.isRun]⟩
  | none => exact absurd ⟨h1, h2, h3, h4⟩ h

/-- Witness of C5: the construction of the operator-config client fails. -/
theorem client_fault_aborts_witness :
    ¬ clientsBuilt (withClientFault 2 (GoError.errorString "invalid configuration")) sampleCtx ∧
    ∃ e, firstClientErr (withClientFault 2 (GoError.errorString "invalid configuration"))
        sampleCtx = some e ∧
      (RunOperator (withClientFault 2 (GoError.errorString "invalid configuration"))
        sampleCtx).outcome.result? = some (some e) :=
  ⟨by simp [clientsBuilt, withClientFault],
   (client_fault_aborts (withClientFault 2 (GoError.errorString "invalid configuration"))
      sampleCtx (by simp [clientsBuilt, withClientFault])).imp
    fun _ he => ⟨he.1, he.2.2.1⟩⟩

/-! ## Seeding of the version recorder -/

theorem versionRecorder_of_startupSucceeds (w : World) (ctx : ControllerContext)
    (h : startupSucceeds w ctx) :
    (RunOperator w ctx).versionRecorder = some (seededRecorder w) := by
  rw [RunOperator_of_startupSucceeds w ctx h]
  unfold recvThenReturn
  cases w.closedAt ctx.Done <;> rfl

/-- After the seeding loop a name maps to the version of its last occurrence in
the slice, or to what the recorder held before when the slice does not name it. -/
theorem seedVersions_versions (vs : List OperandVersion) (vr : versionGetter)
    (k ver : String) :
    (seedVersions vr vs).versions k = some ver ↔
      (∃ pre post, vs = pre ++ ⟨k, ver⟩ :: post ∧ ∀ x ∈ post, x.Name ≠ k) ∨
      ((∀ x ∈ vs, x.Name ≠ k) ∧ vr.versions k = some ver) := by
  induction vs generalizing vr with
  | nil => simp [seedVersions]
  | cons a l ih =>
    have hstep : seedVersions vr (a :: l) = seedVersions (vr.SetVersion a.Name a.Version) l := rfl
    rw [hstep, ih]
    constructor
    · rintro (⟨pre, post, hl, hp⟩ | ⟨hno, hif⟩)
      · exact Or.inl ⟨a :: pre, post, by rw [hl]; rfl, hp⟩
      · by_cases hk : k = a.Name
        · simp only [versionGetter.SetVersion, hk, if_true, Option.some.injEq] at hif
          refine Or.inl ⟨[], l, ?_, hno⟩
          subst hk hif
          rfl
        · simp only [versionGetter.SetVersion, hk, if_false] at hif
          refine Or.inr ⟨?_, hif⟩
          intro x hx
          rcases List.mem_cons.mp hx with rfl | hx
          · exact fun h => hk h.symm
          · exact hno x hx
    · rintro (⟨pre, post, hl, hp⟩ | ⟨hall, hv⟩)
      · cases pre with
        | nil =>
          simp only [List.nil_append, List.cons.injEq] at hl
          obtain ⟨rfl, rfl⟩ := hl
          exact Or.inr ⟨hp, by simp [versionGetter.SetVersion]⟩
        | cons b pre =>
          simp only [List.cons_append, List.cons.injEq] at hl
          exact Or.inl ⟨pre, post, hl.2, hp⟩
      · refine Or.inr ⟨fun x hx => hall x (List.mem_cons_of_mem _ hx), ?_⟩
        have hk : ¬ k = a.Name := fun h => hall a (List.mem_cons_self _ _) h.symm
        simp only [versionGetter.SetVersion, hk, if_false]
        exact hv

/-- When the names of a slice are pairwise distinct, every one of its elements is
the last occurrence of its name. -/
theorem last_occurrence_iff_mem (vs : List OperandVersion) (k ver : String)
    (hd : (vs.map (fun x => x.Name)).Nodup) :
    (∃ pre post, vs = pre ++ ⟨k, ver⟩ :: post ∧ ∀ x ∈ post, x.Name ≠ k) ↔
      (⟨k, ver⟩ : OperandVersion) ∈ vs := by
  constructor
  · rintro ⟨pre, post, hl, _⟩
    rw [hl]
    simp
  · intro hm
    obtain ⟨pre, post, hl⟩ := List.append_of_mem hm
    refine ⟨pre, post, hl, ?_⟩
    intro x hx hxk
    rw [hl, List.map_append, List.map_cons, List.nodup_append] at hd
    have hnd := (List.nodup_cons.mp hd.2.1).1
    exact hnd (List.mem_map.mpr ⟨x, hx, hxk⟩)

/-- The contents of the seeded recorder, for every slice of versions. -/
theorem seededRecorder_versions (w : World) (n ver : String) :
    (seededRecorder w).versions n = some ver ↔
      (n = "operator" ∧ ver = w.getenv "OPERATOR_IMAGE_VERSION") ∨
      (n ≠ "operator" ∧ ∃ pre post,
        (statusRecord w).Status.Versions = pre ++ ⟨n, ver⟩ :: post ∧
        ∀ x ∈ post, x.Name ≠ n) := by
  unfold seededRecorder
  by_cases hn : n = "operator"
  · simp only [versionGetter.SetVersion, hn, if_true, Option.some.injEq, true_and, ne_eq,
      not_true_eq_false, false_and, or_false]
    exact eq_comm
  · simp only [versionGetter.SetVersion, hn, if_false, false_and, false_or, ne_eq,
      not_false_eq_true, true_and]
    rw [seedVersions_versions]
    simp [status.NewVersionGetter]

/-- C3: when every construction step before the status read succeeds and the read
of the published status record "openshift-apiserver" fails with a not-found error
e, RunOperator does not return e: it goes on with startup (all five caches are
started and all seven controllers are run), and the version ledger after seeding
has exactly one entry, the one for "operator", whose value is the environment
value OPERATOR_IMAGE_VERSION. -/
theorem not_found_is_tolerated (w : World) (ctx : ControllerContext) (e : GoError)
    (hc : constructionSucceeds w ctx)
    (hr : w.clusterOperator "openshift-apiserver" = Except.error e)
    (hn : errors.IsNotFound e = true) :
    (RunOperator w ctx).outcome.result? ≠ some (some e) ∧
    (∀ f : Factory, Call.Start f ctx.Done ∈ (RunOperator w ctx).calls) ∧
    (∀ c : Controller, Call.Run c 1 ctx.Done ∈ (RunOperator w ctx).calls) ∧
    ∃ vr, (RunOperator w ctx).versionRecorder = some vr ∧
      ∀ n ver, vr.versions n = some ver ↔
        (n = "operator" ∧ ver = w.getenv "OPERATOR_IMAGE_VERSION") := by
  have hs : startupSucceeds w ctx := by
    refine ⟨hc, ?_⟩
    intro e2 he2
    simp only [statusReadErr, hr, ClusterOperators.Get, Option.some.injEq] at he2
    rw [← he2]
    exact hn
  have hrec : (statusRecord w).Status.Versions = [] := by
    simp [statusRecord, hr, ClusterOperators.Get]
  refine ⟨?_, (issues_starts_and_runs w ctx hs).1, (issues_starts_and_runs w ctx hs).2, ?_⟩
  · rw [RunOperator_of_startupSucceeds w ctx hs]
    unfold recvThenReturn
    cases w.closedAt ctx.Done with
    | none => simp [Outcome.result?]
    | some t =>
      simp only [Outcome.result?, ne_eq, Option.some.injEq, fmt.Errorf]
      intro he
      rw [← he] at hn
      simp [errors.IsNotFound] at hn
  · refine ⟨seededRecorder w, versionRecorder_of_startupSucceeds w ctx hs, ?_⟩
    intro n ver
    rw [seededRecorder_versions, hrec]
    simp

/-- Witness of C3: first install with OPERATOR_IMAGE_VERSION=9.9.9; the ledger is
the single entry operator -> 9.9.9. -/
theorem not_found_is_tolerated_witness :
    errors.IsNotFound notFoundErr = true ∧
    ∃ vr, (RunOperator firstInstall sampleCtx).versionRecorder = some vr ∧
      ∀ n ver, vr.versions n = some ver ↔ (n = "operator" ∧ ver = "9.9.9") :=
  ⟨by decide,
   (not_found_is_tolerated firstInstall sampleCtx notFoundErr
    ⟨⟨rfl, rfl, rfl, rfl⟩, rfl, rfl⟩ rfl (by decide)).2.2.2⟩

/-- C2, as stated, fails on a record that names a component twice: with the
versions A -> 1.0, A -> 2.0 the seeded ledger does not contain exactly the pairs of
the record plus operator -> v, because the pair A -> 1.0 is overwritten. -/
theorem seeded_ledger_drops_repeated_name :
    ¬ (∀ vr, (RunOperator (withStatus (Except.ok repeatedRecord)) sampleCtx).versionRecorder
          = some vr →
        ∀ n ver, vr.versions n = some ver ↔
          (n = "operator" ∧
            ver = (withStatus (Except.ok repeatedRecord)).getenv "OPERATOR_IMAGE_VERSION") ∨
          (n ≠ "operator" ∧ (⟨n, ver⟩ : OperandVersion) ∈ repeatedRecord.Status.Versions)) := by
  intro H
  have hs : startupSucceeds (withStatus (Except.ok repeatedRecord)) sampleCtx := by
    simp [startupSucceeds, constructionSucceeds, clientsBuilt, statusReadPasses,
      statusReadErr, withStatus, firstInstall, ClusterOperators.Get]
  have h1 := (H _ (versionRecorder_of_startupSucceeds _ sampleCtx hs) "A" "1.0").mpr
    (Or.inr ⟨by decide, by decide⟩)
  simp [seededRecorder, seedVersions, versionGetter.SetVersion, statusRecord, withStatus,
    ClusterOperators.Get, repeatedRecord] at h1

/-- C2, amended: for every prior ClusterOperator status record that the status
read returns and every value v of OPERATOR_IMAGE_VERSION, the version ledger after
seeding maps "operator" to v, even when the record holds an "operator" entry with
another version, and maps every other name to the version of the last pair of the
record with that name, and holds nothing else; when the names of the record are
pairwise distinct, the ledger contains exactly the pairs of the record for names
other than "operator" plus the entry operator -> v. -/
theorem seeded_ledger (w : World) (ctx : ControllerContext) (record : ClusterOperator)
    (hc : constructionSucceeds w ctx)
    (hr : w.clusterOperator "openshift-apiserver" = Except.ok record) :
    ∃ vr, (RunOperator w ctx).versionRecorder = some vr ∧
      vr.versions "operator" = some (w.getenv "OPERATOR_IMAGE_VERSION") ∧
      (∀ n ver, vr.versions n = some ver ↔
        (n = "operator" ∧ ver = w.getenv "OPERATOR_IMAGE_VERSION") ∨
        (n ≠ "operator" ∧ ∃ pre post,
          record.Status.Versions = pre ++ ⟨n, ver⟩ :: post ∧ ∀ x ∈ post, x.Name ≠ n)) ∧
      ((record.Status.Versions.map (fun x => x.Name)).Nodup →
        ∀ n ver, vr.versions n = some ver ↔
          (n = "operator" ∧ ver = w.getenv "OPERATOR_IMAGE_VERSION") ∨
          (n ≠ "operator" ∧ (⟨n, ver⟩ : OperandVersion) ∈ record.Status.Versions)) := by
  have hs : startupSucceeds w ctx := by
    refine ⟨hc, ?_⟩
    intro e he
    simp [statusReadErr, hr, ClusterOperators.Get] at he
  have hrec : statusRecord w = record := by
    simp [statusRecord, hr, ClusterOperators.Get]
  refine ⟨seededRecorder w, versionRecorder_of_startupSucceeds w ctx hs, ?_, ?_, ?_⟩
  · exact (seededRecorder_versions w _ _).mpr (Or.inl ⟨rfl, rfl⟩)
  · intro n ver
    rw [seededRecorder_versions, hrec]
  · intro hd n ver
    rw [seededRecorder_versions, hrec, last_occurrence_iff_mem _ n ver hd]

/-- Witness of C2, amended: the record A -> 1.0, B -> 2.0, operator -> 0.0.1 with
OPERATOR_IMAGE_VERSION=9.9.9 seeds the ledger with A -> 1.0, B -> 2.0 and
operator -> 9.9.9. -/
theorem seeded_ledger_witness :
    (sampleRecord.Status.Versions.map (fun x => x.Name)).Nodup ∧
    ∃ vr, (RunOperator (withStatus (Except.ok sampleRecord)) sampleCtx).versionRecorder
        = some vr ∧
      vr.versions "operator" = some "9.9.9" ∧
      ∀ n ver, vr.versions n = some ver ↔
        (n = "operator" ∧ ver = "9.9.9") ∨
        (n ≠ "operator" ∧ (⟨n, ver⟩ : OperandVersion) ∈ sampleRecord.Status.Versions) :=
  ⟨by decide,
   (seeded_ledger (withStatus (Except.ok sampleRecord)) sampleCtx sampleRecord
      ⟨⟨rfl, rfl, rfl, rfl⟩, rfl, rfl⟩ rfl).imp
    fun _ h => ⟨h.1, h.2.1, h.2.2.2 (by decide)⟩⟩

/-! ## Shutdown and startup faults as results -/

/-- C7: normal shutdown is observably distinct from a startup fault: for every run
of RunOperator that ends because the stop signal was raised and every run that
ends because of a fault in client construction, controller construction or the
status read, the value returned by the first differs from the value returned by
the second.  The first is the error that the fmt.Errorf call of RunOperator
allocates, with message "stopped"; the second is the error value that the failing
step handed back, returned unchanged; neither is nil. -/
theorem shutdown_distinct_from_fault (w1 w2 : World) (ctx1 ctx2 : ControllerContext)
    (t : Nat)
    (h1 : startupSucceeds w1 ctx1) (hstop : w1.closedAt ctx1.Done = some t)
    (h2 : ¬ startupSucceeds w2 ctx2) :
    (RunOperator w1 ctx1).returnValue =
      some (some ⟨Allocation.byErrorf, GoError.errorString "stopped"⟩) ∧
    (∃ e, startupFault w2 ctx2 = some e ∧
      (RunOperator w2 ctx2).returnValue = some (some ⟨Allocation.byCollaborator, e⟩)) ∧
    (RunOperator w1 ctx1).returnValue ≠ (RunOperator w2 ctx2).returnValue := by
  have r1 : (RunOperator w1 ctx1).returnValue =
      some (some ⟨Allocation.byErrorf, GoError.errorString "stopped"⟩) := by
    rw [RunOperator_of_startupSucceeds w1 ctx1 h1]
    simp [recvThenReturn, hstop, fmt.Errorf]
  cases hf : startupFault w2 ctx2 with
  | none => exact absurd ((startupFault_eq_none_iff w2 ctx2).mp hf) h2
  | some e =>
    obtain ⟨n, vr, hrun⟩ := RunOperator_of_startupFault w2 ctx2 e hf
    have r2 : (RunOperator w2 ctx2).returnValue =
        some (some ⟨Allocation.byCollaborator, e⟩) := by
      rw [hrun]
      rfl
    refine ⟨r1, ⟨e, rfl, r2⟩, ?_⟩
    rw [r1, r2]
    simp

/-- Witness of C7: shutdown of the first-install run against a run whose kube
client construction fails, even with an error whose text is "stopped". -/
theorem shutdown_distinct_from_fault_witness :
    startupSucceeds firstInstall sampleCtx ∧
    ¬ startupSucceeds (withClientFault 0 (GoError.errorString "stopped")) sampleCtx ∧
    (RunOperator firstInstall sampleCtx).returnValue ≠
      (RunOperator (withClientFault 0 (GoError.errorString "stopped"))
        sampleCtx).returnValue :=
  ⟨by simp [startupSucceeds, constructionSucceeds, clientsBuilt, statusReadPasses,
      statusReadErr, firstInstall, ClusterOperators.Get, notFoundErr, errors.IsNotFound],
   by simp [startupSucceeds, constructionSucceeds, clientsBuilt, withClientFault],
   (shutdown_distinct_from_fault firstInstall
      (withClientFault 0 (GoError.errorString "stopped")) sampleCtx sampleCtx 100
      (by simp [startupSucceeds, constructionSucceeds, clientsBuilt, statusReadPasses,
        statusReadErr, firstInstall, ClusterOperators.Get, notFoundErr, errors.IsNotFound])
      rfl
      (by simp [startupSucceeds, constructionSucceeds, clientsBuilt, withClientFault])).2.2⟩

/-! ## Wiring of the workload controller -/

theorem workload_of_startupSucceeds (w : World) (ctx : ControllerContext)
    (h : startupSucceeds w ctx) :
    (RunOperator w ctx).workload = some (workloadWiring w) := by
  rw [RunOperator_of_startupSucceeds w ctx h]
  unfold recvThenReturn
  cases w.closedAt ctx.Done <;> rfl

/-- C8, as stated, fails: in the first-install run the two config-namespace
informer arguments of NewWorkloadController are one and the same, the informers
of the user-specified config namespace, and the second is not the informers of
the machine-specified config namespace. -/
theorem workload_config_informers_coincide :
    ∃ a, (RunOperator firstInstall sampleCtx).workload = some a ∧
      a.firstConfigNamespaceInformers = a.secondConfigNamespaceInformers ∧
      a.secondConfigNamespaceInformers =
        some ⟨firstInstall.operatorclient.GlobalUserSpecifiedConfigNamespace⟩ ∧
      a.secondConfigNamespaceInformers ≠
        some ⟨firstInstall.operatorclient.GlobalMachineSpecifiedConfigNamespace⟩ := by
  refine ⟨workloadWiring firstInstall,
    workload_of_startupSucceeds firstInstall sampleCtx firstInstall_startupSucceeds, rfl, ?_, ?_⟩
  · decide
  · decide

/-- C8, amended: the workload controller built by RunOperator is given the
informers of the target namespace, and its two config-namespace informer
arguments are both the informers of the user-specified config namespace
(GlobalUserSpecifiedConfigNamespace); the second of them is the informers of the
machine-specified config namespace only if GlobalMachineSpecifiedConfigNamespace
names the same namespace as GlobalUserSpecifiedConfigNamespace. -/
theorem workload_wiring (w : World) (ctx : ControllerContext)
    (h : startupSucceeds w ctx) :
    ∃ a, (RunOperator w ctx).workload = some a ∧
      a.targetNamespaceInformers = some ⟨w.operatorclient.TargetNamespace⟩ ∧
      a.firstConfigNamespaceInformers =
        some ⟨w.operatorclient.GlobalUserSpecifiedConfigNamespace⟩ ∧
      a.secondConfigNamespaceInformers =
        some ⟨w.operatorclient.GlobalUserSpecifiedConfigNamespace⟩ ∧
      (a.secondConfigNamespaceInformers =
          some ⟨w.operatorclient.GlobalMachineSpecifiedConfigNamespace⟩ ↔
        w.operatorclient.GlobalMachineSpecifiedConfigNamespace =
          w.operatorclient.GlobalUserSpecifiedConfigNamespace) := by
  refine ⟨workloadWiring w, workload_of_startupSucceeds w ctx h, ?_, ?_, ?_, ?_⟩ <;>
    simp [workloadWiring, v1helpers.NewKubeInformersForNamespaces,
      KubeInformersForNamespaces.InformersFor, eq_comm]

/-- Witness of C8, amended, on the first-install run. -/
theorem workload_wiring_witness :
    ∃ a, (RunOperator firstInstall sampleCtx).workload = some a ∧
      a.targetNamespaceInformers = some ⟨"openshift-apiserver"⟩ ∧
      a.firstConfigNamespaceInformers = some ⟨"openshift-config"⟩ ∧
      a.secondConfigNamespaceInformers = some ⟨"openshift-config"⟩ :=
  (workload_wiring firstInstall sampleCtx
    (by simp [startupSucceeds, constructionSucceeds, clientsBuilt, statusReadPasses,
      statusReadErr, firstInstall, ClusterOperators.Get, notFoundErr, errors.IsNotFound])).imp
    fun _ h => ⟨h.1, h.2.1, h.2.2.1, h.2.2.2.1⟩

/-! ## Seeding and controller construction -/

/-- Among the calls that lead to the status read, followed by calls that do not
construct the resource-sync controller, that controller is constructed before the
version recorder is created. -/
theorem resource_sync_precedes_recorder (n : Nat) (rest : List Call)
    (hrest : ∀ x ∈ rest,
      Call.isNewControllerOf Controller.resourceSyncController x = false) :
    Precedes (Call.isNewControllerOf Controller.resourceSyncController)
      Call.isNewVersionGetter (bootCalls.take n ++ rest) := by
  have hsplit : bootCalls.take n =
      (bootCalls.take 10).take n ++ (bootCalls.drop 10).take (n - 10) := by
    conv_lhs => rw [← List.take_append_drop 10 bootCalls]
    rw [List.take_append_eq_append_take]
    rfl
  intro i j a b hi hj ha hb
  rw [hsplit, List.append_assoc] at hi hj
  refine precedes_of_split _ _ _ _ ?_ ?_ i j a b hi hj ha hb
  · intro x hx
    have hx2 : x ∈ bootCalls.take 10 := List.mem_of_mem_take hx
    simp only [bootCalls, List.take_succ_cons, List.take_zero, List.mem_cons,
      List.not_mem_nil, or_false] at hx2
    rcases hx2 with h | h | h | h | h | h | h | h | h | h <;> subst h <;> rfl
  · intro x hx
    rcases List.mem_append.mp hx with hx | hx
    · have hx2 : x ∈ bootCalls.drop 10 := List.mem_of_mem_take hx
      simp only [bootCalls, List.drop_succ_cons, List.drop_zero, List.mem_cons,
        List.not_mem_nil, or_false] at hx2
      rcases hx2 with h | h <;> subst h <;> rfl
    · exact hrest x hx

/-- C10, as stated, fails: in the first-install run the resource-sync controller
is constructed (call 9) before the version ledger is seeded (call 12), so not
every write of the ledger precedes every controller construction. -/
theorem resource_sync_built_before_seeding :
    (RunOperator firstInstall sampleCtx).calls[9]? =
      some (Call.NewController Controller.resourceSyncController) ∧
    (RunOperator firstInstall sampleCtx).calls[12]? =
      some (Call.SetVersion "operator" "9.9.9") ∧
    ¬ Precedes Call.isSetVersion Call.isNewController
      (RunOperator firstInstall sampleCtx).calls := by
  have h9 : (RunOperator firstInstall sampleCtx).calls[9]? =
      some (Call.NewController Controller.resourceSyncController) := by
    rw [RunOperator_of_startupSucceeds firstInstall sampleCtx firstInstall_startupSucceeds]
    rfl
  have h12 : (RunOperator firstInstall sampleCtx).calls[12]? =
      some (Call.SetVersion "operator" "9.9.9") := by
    rw [RunOperator_of_startupSucceeds firstInstall sampleCtx firstInstall_startupSucceeds]
    rfl
  refine ⟨h9, h12, fun H => ?_⟩
  have := H 12 9 _ _ h12 h9 rfl rfl
  omega

/-- C10, amended: in every run of RunOperator, the version ledger is fully seeded
(the versions of the prior status record copied and the "operator" entry set)
before any of the six controllers other than the resource-sync controller is
constructed, and the resource-sync controller is constructed before the ledger
is created and before its first write; in a run whose startup succeeds the
seeding writes and the seven constructions all take place. -/
theorem seeding_precedes_later_controllers (w : World) (ctx : ControllerContext) :
    Precedes Call.isSetVersion
      (Call.isNewControllerOtherThan Controller.resourceSyncController)
      (RunOperator w ctx).calls ∧
    Precedes (Call.isNewControllerOf Controller.resourceSyncController) Call.isSetVersion
      (RunOperator w ctx).calls ∧
    Precedes (Call.isNewControllerOf Controller.resourceSyncController)
      Call.isNewVersionGetter (RunOperator w ctx).calls ∧
    (startupSucceeds w ctx →
      Call.SetVersion "operator" (w.getenv "OPERATOR_IMAGE_VERSION")
        ∈ (RunOperator w ctx).calls ∧
      (∀ x ∈ (statusRecord w).Status.Versions,
        Call.SetVersion x.Name x.Version ∈ (RunOperator w ctx).calls) ∧
      (∀ c : Controller, Call.NewController c ∈ (RunOperator w ctx).calls) ∧
      Call.NewVersionGetter ∈ (RunOperator w ctx).calls) := by
  cases hf : startupFault w ctx with
  | some e =>
    obtain ⟨n, vr, hrun⟩ := RunOperator_of_startupFault w ctx e hf
    have hnone : ¬ startupSucceeds w ctx := fun hs => by
      rw [(startupFault_eq_none_iff w ctx).mpr hs] at hf
      cases hf
    refine ⟨?_, ?_, ?_, fun hs => absurd hs hnone⟩
    · intro i j a b hi _ ha _
      have hq := bootCalls_take_quiet n a (by
        rw [hrun] at hi
        exact List.getElem?_mem hi)
      rw [hq.2.2.1] at ha
      cases ha
    · intro i j a b _ hj _ hb
      have hq := bootCalls_take_quiet n b (by
        rw [hrun] at hj
        exact List.getElem?_mem hj)
      rw [hq.2.2.1] at hb
      cases hb
    · have hp := resource_sync_precedes_recorder n [] (by simp)
      rw [hrun]
      simpa [returnErr] using hp
  | none =>
    have hs := (startupFault_eq_none_iff w ctx).mp hf
    rw [RunOperator_of_startupSucceeds w ctx hs, recvThenReturn_calls]
    refine ⟨?_, ?_, ?_, fun _ => ⟨?_, ?_, ?_, ?_⟩⟩
    · intro i j a b hi hj ha hb
      simp only [List.append_assoc] at hi hj
      rw [← List.append_assoc] at hi hj
      refine precedes_of_split _ _ _ _ ?_ ?_ i j a b hi hj ha hb
      · intro x hx
        rcases List.mem_append.mp hx with hx | hx
        · have hq := bootCalls_take_quiet bootCalls.length x (by simpa using hx)
          cases x <;> simp_all [Call.isNewControllerOtherThan, Call.isNewController]
        · obtain ⟨n, v, rfl⟩ := mem_seedCalls w x hx
          rfl
      · intro x hx
        simp only [List.mem_append] at hx
        rcases hx with hx | hx | hx | hx
        · rcases mem_wireCalls ctx x hx with rfl | ⟨c, _, rfl⟩ <;> rfl
        · obtain ⟨f, rfl⟩ := mem_startCalls _ x hx
          rfl
        · obtain ⟨c, rfl⟩ := mem_runCalls _ x hx
          rfl
        · rw [mem_recvCalls w _ x hx]
          rfl
    · intro i j a b hi hj ha hb
      simp only [List.append_assoc] at hi hj
      refine precedes_of_split _ _ _ _ ?_ ?_ i j a b hi hj ha hb
      · intro x hx
        exact (bootCalls_take_quiet bootCalls.length x (by simpa using hx)).2.2.1
      · intro x hx
        simp only [List.mem_append] at hx
        rcases hx with hx | hx | hx | hx | hx
        · obtain ⟨n, v, rfl⟩ := mem_seedCalls w x hx
          rfl
        · rcases mem_wireCalls ctx x hx with rfl | ⟨c, hc, rfl⟩
          · rfl
          · simp [Call.isNewControllerOf, hc]
        · obtain ⟨f, rfl⟩ := mem_startCalls _ x hx
          rfl
        · obtain ⟨c, rfl⟩ := mem_runCalls _ x hx
          rfl
        · rw [mem_recvCalls w _ x hx]
          rfl
    · have hp := resource_sync_precedes_recorder bootCalls.length
        (seedCalls w ++ (wireCalls ctx ++ (startCalls ctx.Done ++
          (runCalls ctx.Done ++ recvCalls w ctx.Done)))) (by
        intro x hx
        simp only [List.mem_append] at hx
        rcases hx with hx | hx | hx | hx | hx
        · obtain ⟨n, v, rfl⟩ := mem_seedCalls w x hx
          rfl
        · rcases mem_wireCalls ctx x hx with rfl | ⟨c, hc, rfl⟩
          · rfl
          · simp [Call.isNewControllerOf, hc]
        · obtain ⟨f, rfl⟩ := mem_startCalls _ x hx
          rfl
        · obtain ⟨c, rfl⟩ := mem_runCalls _ x hx
          rfl
        · rw [mem_recvCalls w _ x hx]
          rfl)
      rw [List.take_length] at hp
      simpa only [List.append_assoc] using hp
    · simp [seedCalls]
    · intro x hx
      simp only [List.mem_append, seedCalls, List.mem_map]
      exact Or.inl (Or.inl (Or.inl (Or.inl (Or.inr (Or.inl ⟨x, hx, rfl⟩)))))
    · intro c
      cases c <;> simp [bootCalls, wireCalls]
    · simp [bootCalls]

/-- Witness of C10, amended: in the run seeded from the sample record every
write of the ledger precedes the construction of the six later controllers. -/
theorem seeding_precedes_later_controllers_witness :
    startupSucceeds (withStatus (Except.ok sampleRecord)) sampleCtx ∧
    Call.SetVersion "operator" "9.9.9"
      ∈ (RunOperator (withStatus (Except.ok sampleRecord)) sampleCtx).calls ∧
    Precedes Call.isSetVersion
      (Call.isNewControllerOtherThan Controller.resourceSyncController)
      (RunOperator (withStatus (Except.ok sampleRecord)) sampleCtx).calls :=
  ⟨by simp [startupSucceeds, constructionSucceeds, clientsBuilt, statusReadPasses,
      statusReadErr, withStatus, firstInstall, ClusterOperators.Get],
   ((seeding_precedes_later_controllers (withStatus (Except.ok sampleRecord)) sampleCtx).2.2.2
    (by simp [startupSucceeds, constructionSucceeds, clientsBuilt, statusReadPasses,
      statusReadErr, withStatus, firstInstall, ClusterOperators.Get])).1,
   (seeding_precedes_later_controllers (withStatus (Except.ok sampleRecord)) sampleCtx).1⟩

end Operator
